import Mathlib

/-!
Shallow embedding of `src/moviebot.py` (an AWS Lex code-hook backend for a
movie-information bot) and verification of its specification claims.

Modelling conventions:
* Python dicts used as ordered key/value records become association lists
  (`List (String × String)` for session attributes, `List (String × Option String)`
  for the slot map, where a `none` value models Python's `None`).
* The heterogeneous response dicts of the source become the sum type `BotResponse`:
  the five dialog-action shapes produced by the response builders, plus the
  distinct `{isValid, violatedSlot, message}` dict produced by
  `build_validation_result` (which carries no `dialogAction` and no
  `sessionAttributes` key).
* Outbound HTTP calls become explicit inputs: `none` models a non-200 status or
  an empty response body (the code guards every call with
  `r.status_code == 200 and r.text`), `some payload` models a parsed JSON body.
* `difflib.SequenceMatcher(None, a, b).ratio()` is kept abstract as a rational
  valued parameter `sim : String → String → ℚ`; the claims concern only the
  selection loop built on top of it.  `arrow` date formatting is likewise kept
  abstract (`fmtTime`, `fmtDate`).
* Python exceptions (KeyError, UnboundLocalError, ...) are modelled by
  `Except.error`; a raised exception is a raw error surfaced to the platform,
  never a dialog response.
-/

deriving instance DecidableEq for Except

namespace Moviebot

/-- Python `None`-able slot map: key present with a string, key present with
`None`, or key absent. -/
abbrev Slots := List (String × Option String)

/-- The opaque session-attribute carrier round-tripped each turn. -/
abbrev SessionAttrs := List (String × String)

/-- A plain-text message dict `\x7b'contentType': ..., 'content': ...\x7d`. -/
structure Message where
  contentType : String
  content : String
deriving DecidableEq, Repr

/-- One option pair of a response card (`text` shown, `value` submitted). -/
structure CardButton where
  text : String
  value : String
deriving DecidableEq, Repr

/-- One generic attachment ("page") of a response card. -/
structure CardAttachment where
  title : String
  subTitle : String
  buttons : List CardButton
deriving DecidableEq, Repr

/-- The full response card returned by `build_response_card`. -/
structure ResponseCard where
  contentType : String
  version : Nat
  genericAttachments : List CardAttachment
deriving DecidableEq, Repr

/-- The `dialogAction` payloads produced by the five response builders. -/
inductive DialogAction where
  | elicitSlot (intentName : String) (slots : Slots) (slotToElicit : String)
      (message : Option Message) (responseCard : Option ResponseCard)
  | elicitIntent (message : Option Message) (responseCard : Option ResponseCard)
  | confirmIntent (intentName : String) (slots : Slots)
      (message : Option Message) (responseCard : Option ResponseCard)
  | close (fulfillmentState : String) (message : Message)
  | delegate (slots : Slots)
deriving DecidableEq, Repr

/-- A value returned by a handler.  The builders all return the
`dialog` shape; `build_validation_result` returns a structurally different
dict (no `dialogAction`, no `sessionAttributes`), kept as its own constructor. -/
inductive BotResponse where
  | dialog (sessionAttributes : Option SessionAttrs) (dialogAction : DialogAction)
  | validationResult (isValid : Bool) (violatedSlot : String) (message : Message)
deriving DecidableEq, Repr

/-- The inbound Lex event, restricted to the fields the handlers read. -/
structure IntentRequest where
  intentName : String
  invocationSource : String
  slots : Slots
  sessionAttributes : Option SessionAttrs
deriving Repr

/- ---- association-list primitives modelling Python dict operations ---- -/

/-- Dict lookup on the session carrier (`attrs[key]` / `key in attrs`). -/
def lookupAttr : SessionAttrs → String → Option String
  | [], _ => Option.none
  | (k, v) :: rest, key => if k = key then some v else lookupAttr rest key

/-- Dict assignment `attrs[key] = v`: replace in place, else append. -/
def setAttr : SessionAttrs → String → String → SessionAttrs
  | [], key, v => [(key, v)]
  | (k, w) :: rest, key, v =>
      if k = key then (key, v) :: rest else (k, w) :: setAttr rest key v

/-- Slot-map lookup: `none` = key absent, `some none` = key maps to Python `None`. -/
def lookupSlot : Slots → String → Option (Option String)
  | [], _ => Option.none
  | (k, v) :: rest, key => if k = key then some v else lookupSlot rest key

/-- Python truthiness of `key in slots and slots[key]`. -/
def slotTruthy (slots : Slots) (key : String) : Bool :=
  match lookupSlot slots key with
  | some (some v) => v ≠ ""
  | _ => false

/-- The slot's string value; only meaningful when `slotTruthy` holds. -/
def slotGet (slots : Slots) (key : String) : String :=
  match lookupSlot slots key with
  | some (some v) => v
  | _ => ""

/- ---- response builders (`elicit_slot` ... `build_response_card`) ---- -/

def elicit_slot (session_attributes : Option SessionAttrs) (intent_name : String)
    (slots : Slots) (slot_to_elicit : String)
    (message : Option Message) (response_card : Option ResponseCard) : BotResponse :=
  BotResponse.dialog session_attributes
    (DialogAction.elicitSlot intent_name slots slot_to_elicit message response_card)

/-- NB: the source's `elicit_intent` accepts an `intent_name` argument but does
not put it anywhere in the response. -/
def elicit_intent (session_attributes : Option SessionAttrs) (_intent_name : String)
    (message : Option Message) (response_card : Option ResponseCard) : BotResponse :=
  BotResponse.dialog session_attributes
    (DialogAction.elicitIntent message response_card)

def confirm_intent (session_attributes : Option SessionAttrs) (intent_name : String)
    (slots : Slots) (message : Option Message) (response_card : Option ResponseCard) :
    BotResponse :=
  BotResponse.dialog session_attributes
    (DialogAction.confirmIntent intent_name slots message response_card)

def close (session_attributes : Option SessionAttrs) (fulfillment_state : String)
    (message : Message) : BotResponse :=
  BotResponse.dialog session_attributes
    (DialogAction.close fulfillment_state message)

def delegate (session_attributes : Option SessionAttrs) (slots : Slots) : BotResponse :=
  BotResponse.dialog session_attributes (DialogAction.delegate slots)

/-- `build_validation_result(is_valid, violated_slot, message_content)`: a raw
dict, not a dialog action. -/
def build_validation_result (is_valid : Bool) (violated_slot : String)
    (message_content : String) : BotResponse :=
  BotResponse.validationResult is_valid violated_slot
    ⟨"PlainText", message_content⟩

/-- `build_response_card(title, subtitle, options)`: Lex permits at most 5
buttons per card; `cnt = len(options)//5 (+1 if a remainder)`, each page `i`
holds `options[i*5:(i+1)*5]`, and when `cnt > 1` every page's title gets the
`" - page %d" % (i+1)` suffix. -/
def build_response_card (title subtitle : String) (options : List CardButton) :
    ResponseCard :=
  let cnt := options.length / 5 + (if options.length % 5 > 0 then 1 else 0)
  let attachments := (List.range cnt).map (fun i =>
    let group := (options.drop (i * 5)).take 5
    let card_title := if cnt > 1 then title ++ " - page " ++ toString (i + 1) else title
    CardAttachment.mk card_title subtitle group)
  ResponseCard.mk "application/vnd.amazonaws.card.generic" 1 attachments

/- ---- Python string helpers (`.lower().strip()`) used by the matcher ---- -/

/-- Characters Python's `str.strip()` removes (ASCII whitespace). -/
def isPySpace (c : Char) : Bool :=
  c = ' ' ∨ c = '\t' ∨ c = '\n' ∨ c = '\x0d' ∨ c = '\x0b' ∨ c = '\x0c'

/-- ASCII lowering, as `str.lower()` acts on the ASCII range. -/
def pyToLowerChar (c : Char) : Char :=
  if 'A' ≤ c ∧ c ≤ 'Z' then Char.ofNat (c.toNat + 32) else c

/-- `s.lower().strip()` over the character list. -/
def pyLowerStrip (s : String) : String :=
  String.mk ((((s.data.map pyToLowerChar).dropWhile isPySpace).reverse.dropWhile
    isPySpace).reverse)

/- ---- best-match selection (the loop at the heart of every handler) ---- -/

/-- The accumulator loop `for m in ...: prob = similar(...); if prob >= 0.5:
if prob > best_sim: best_sim, best = prob, m`.  The accumulator is the running
`(best_sim, best_title)` pair, initialised to `(0, "")` by every caller. -/
def bestLoop (score : String → ℚ) : List String → ℚ × String → ℚ × String
  | [], acc => acc
  | c :: rest, acc =>
      let prob := score c
      if mkRat 1 2 ≤ prob ∧ acc.1 < prob then bestLoop score rest (prob, c)
      else bestLoop score rest acc

/-- The per-candidate score: `similar(candidate.lower().strip(),
query.lower().strip())`, with `similar` (difflib ratio) abstract. -/
def candidateScore (sim : String → String → ℚ) (query candidate : String) : ℚ :=
  sim (pyLowerStrip candidate) (pyLowerStrip query)

/-- Best-match selection as used on title/theater-name candidate lists. -/
def best_title_match (sim : String → String → ℚ) (query : String)
    (titles : List String) : String :=
  (bestLoop (candidateScore sim query) titles (0, "")).2

/-- One TMDB search hit (`id`, `title`). -/
structure SearchResult where
  id : Nat
  title : String
deriving DecidableEq, Repr

/-- The `get_movie_detail` variant of the loop, tracking `(best_sim, best_id,
best_title)` initialised to `(0, 0, "")`. -/
def bestIdLoop (score : String → ℚ) :
    List SearchResult → ℚ × Nat × String → ℚ × Nat × String
  | [], acc => acc
  | m :: rest, acc =>
      let prob := score m.title
      if mkRat 1 2 ≤ prob ∧ acc.1 < prob then bestIdLoop score rest (prob, m.id, m.title)
      else bestIdLoop score rest acc

/- ---- the zipcode format check (`re.search('^(\d{5})([- ])?(\d{4})?$', z)`) ---- -/

/-- Python's `$` (no MULTILINE) also matches just before one trailing newline;
neither `\d` nor `[- ]` can consume that newline, so stripping one final
`'\n'` before anchored matching is equivalent. -/
def stripTrailingNL (s : String) : List Char :=
  match s.data.reverse with
  | c :: rest => if c = '\n' then rest.reverse else s.data
  | [] => []

/-- The optional `(\d{4})?` group followed by the anchor: nothing, or exactly
four digits. -/
def plus4Ok (l : List Char) : Bool :=
  l.isEmpty || (l.length == 4 && l.all Char.isDigit)

/-- What may follow the five leading digits: an optional `[- ]` separator,
then an optional four-digit group, then the anchor.  The two groups are
independently optional, so a bare trailing separator is accepted. -/
def zipTailOk (l : List Char) : Bool :=
  match l with
  | [] => true
  | c :: rest => if c = '-' ∨ c = ' ' then plus4Ok rest else plus4Ok (c :: rest)

/-- `re.search('^(\d{5})([- ])?(\d{4})?$', z)`, returning `group(1)` (the
leading five digits) on a match.  `\d` is modelled as the ASCII digits the
postal codes of this domain use. -/
def zipcodeMatch (s : String) : Option String :=
  let cs := stripTrailingNL s
  if 5 ≤ cs.length ∧ (cs.take 5).all Char.isDigit ∧ zipTailOk (cs.drop 5) then
    some (String.mk (cs.take 5))
  else
    Option.none

/- ---- validate_zipcode ---- -/

/-- The three Python values `validate_zipcode` can put in its first return
slot: `None` (nothing supplied), `False` (format check failed), or a string
(note the session carrier can supply the empty string, which the callers then
treat like `None`). -/
inductive ZipOutcome where
  | missing
  | invalid
  | value (z : String)
deriving DecidableEq, Repr

/-- `if not output_session_attributes: output_session_attributes = \x7b\x7d`. -/
def sessBase : Option SessionAttrs → SessionAttrs
  | Option.none => []
  | some a => a

/-- `validate_zipcode(slots, output_session_attributes)`: prefer a truthy slot
value, else a stored session value (when the normalised carrier is non-empty
and has the key), then run whichever source through the format check. -/
def validate_zipcode (slots : Slots) (session_attributes : Option SessionAttrs) :
    ZipOutcome × SessionAttrs :=
  let out := sessBase session_attributes
  let z0 : ZipOutcome :=
    if slotTruthy slots "zipcode" then ZipOutcome.value (slotGet slots "zipcode")
    else
      match out, lookupAttr out "zipcode" with
      | _ :: _, some v => ZipOutcome.value v
      | _, _ => ZipOutcome.missing
  match z0 with
  | ZipOutcome.value z =>
      if z ≠ "" then
        match zipcodeMatch z with
        | some g => (ZipOutcome.value g, setAttr out "zipcode" g)
        | Option.none => (ZipOutcome.invalid, out)
      else (ZipOutcome.value z, out)
  | r => (r, out)

/-- The `if source == 'DialogCodeHook':` block shared verbatim by `find_movie`,
`get_showtimes`, `get_theater_movies` and `get_movies`: on `False` return the
raw `build_validation_result` dict, on `None` (or an empty stored string,
which is falsy but `!= False`) elicit the slot, otherwise delegate. -/
def dialog_code_hook (intent_name : String) (slots : Slots)
    (session_attributes : Option SessionAttrs) : BotResponse :=
  match validate_zipcode slots session_attributes with
  | (ZipOutcome.invalid, _) =>
      build_validation_result false "zipcode"
        "Whoops! You entered an invalid zip code. What is your zip code?"
  | (ZipOutcome.missing, out) =>
      elicit_slot (some out) intent_name slots "zipcode" Option.none Option.none
  | (ZipOutcome.value z, out) =>
      if z = "" then
        elicit_slot (some out) intent_name slots "zipcode" Option.none Option.none
      else delegate (some out) slots

/- ---- provider payloads and the request environment ---- -/

/-- One showtime entry of the TMS listings payload
(`\x7b'theatre': \x7b'name': ...\x7d, 'dateTime': ...\x7d`). -/
structure Showing where
  theatreName : String
  dateTime : String
deriving DecidableEq, Repr

/-- One movie of the TMS listings payload. -/
structure Movie where
  title : String
  showtimes : List Showing
deriving DecidableEq, Repr

/-- One entry of the TMDB release-dates payload. -/
structure ReleaseEntry where
  iso_3166_1 : String
  release_dates : List String
deriving DecidableEq, Repr

/-- The TMDB detail-by-id payload fields the code reads. -/
structure MovieDetail where
  runtime : Nat
  release_date : String
deriving DecidableEq, Repr

/-- The three TMDB lookups; `none` models a non-200 status or empty body. -/
structure TmdbEnv where
  search : Option (List SearchResult)
  release_dates : Option (List ReleaseEntry)
  detail : Option MovieDetail

/-- Everything outside the handler that one invocation observes: the abstract
similarity ratio, the two `arrow` formatters, and the provider responses. -/
structure Env where
  sim : String → String → ℚ
  fmtTime : String → String
  fmtDate : String → String
  listings : Option (List Movie)
  tmdb : TmdbEnv

/-- `slots[key]` followed by string-method use: a missing key raises KeyError;
a `None` value raises AttributeError at its first `.lower()`/`.strip()` use
(modelled as an immediate error; no claim exercises a `None`-valued slot in
the fulfillment phase). -/
def pySlotStr (slots : Slots) (key : String) : Except String String :=
  match lookupSlot slots key with
  | some (some v) => Except.ok v
  | some Option.none => Except.error "AttributeError"
  | Option.none => Except.error "KeyError"

/-- `output_session_attributes[key]` in the fulfillment phase (the raw inbound
carrier, not normalised): `None` raises TypeError, a missing key KeyError. -/
def pySessAttr (session_attributes : Option SessionAttrs) (key : String) :
    Except String String :=
  match session_attributes with
  | Option.none => Except.error "TypeError"
  | some a =>
      match lookupAttr a key with
      | some v => Except.ok v
      | Option.none => Except.error "KeyError"

/-- The first-seen-order dedup idiom `if x in acc: continue else: acc.append(x)`. -/
def dedupFold (l : List String) : List String :=
  l.foldl (fun acc t => if t ∈ acc then acc else acc ++ [t]) []

/-- The rating loop of `get_movie_detail`: every `'US'` entry overwrites
`rating` with `entry['release_dates'][0]['certification']`; an empty inner
list raises IndexError. -/
def usRating : List ReleaseEntry → String → Except String String
  | [], rating => Except.ok rating
  | e :: rest, rating =>
      if e.iso_3166_1 = "US" then
        match e.release_dates with
        | c :: _ => usRating rest c
        | [] => Except.error "IndexError"
      else usRating rest rating

/- ---- capability handlers ---- -/

/-- `help(intent_request)`: a fixed Close(Fulfilled) with example queries. -/
def help (req : IntentRequest) : Except String BotResponse :=
  Except.ok (close req.sessionAttributes "Fulfilled"
    ⟨"PlainText", "You can ask me for information about when and where movies are playing, as well as for basic info on current movies. Here are some examples of things you can ask me:\n  * What movies are out right now?\n  * What movies are playing near _zipcode_?\n  * Where is _movie_ playing?\n  * Tell me when _movie_ is showing at _theater_\n  * How long is _movie_?\n  * What is _movie_ rated?"⟩)

/-- `get_movie_detail(intent_request)`: search TMDB by title, pick the best
match by id, then enrich with two independent secondary lookups, each
defaulting (`rating = ''`, `release_date = ''`, `runtime = 0`) when its call
fails.  Note the source never consults `invocationSource` here. -/
def get_movie_detail (env : Env) (req : IntentRequest) : Except String BotResponse :=
  match pySlotStr req.slots "movie_title" with
  | Except.error e => Except.error e
  | Except.ok movie_title =>
      let best : ℚ × Nat × String :=
        match env.tmdb.search with
        | some results => bestIdLoop (candidateScore env.sim movie_title) results (0, 0, "")
        | Option.none => (0, 0, "")
      let best_id := best.2.1
      let best_title := best.2.2
      if best_id ≠ 0 then
        match (match env.tmdb.release_dates with
               | some entries => usRating entries ""
               | Option.none => Except.ok "") with
        | Except.error e => Except.error e
        | Except.ok rating =>
            let rd : Nat × String :=
              match env.tmdb.detail with
              | some d => (d.runtime, env.fmtDate d.release_date)
              | Option.none => (0, "")
            Except.ok (close req.sessionAttributes "Fulfilled"
              ⟨"PlainText", "Here is some info for *" ++ best_title ++
                "*:\n_Release date_: " ++ rd.2 ++ "\n_Runtime_: " ++ toString rd.1 ++
                " mins\n_Rating_: " ++ rating⟩)
      else
        Except.ok (close req.sessionAttributes "Fulfilled"
          ⟨"PlainText", "I\x27m sorry, I can\x27t find any info for *" ++ movie_title ++ "*"⟩)

/-- `get_showtimes(intent_request)`: dialog phase validates the zipcode; the
fulfillment phase fetches listings and best-matches movie and theater.  The
locals `best_title`, `best_theater` and `showtimes` are assigned only inside
the `r.status_code == 200 and r.text` branch, so a failed call leaves them
unbound and the subsequent `len(showtimes)` raises UnboundLocalError. -/
def get_showtimes (env : Env) (req : IntentRequest) : Except String BotResponse :=
  if req.invocationSource = "DialogCodeHook" then
    Except.ok (dialog_code_hook req.intentName req.slots req.sessionAttributes)
  else
    match pySlotStr req.slots "movie_title", pySlotStr req.slots "theater_name",
          pySessAttr req.sessionAttributes "zipcode" with
    | Except.ok movie_title, Except.ok theater_name, Except.ok _zipcode =>
        match env.listings with
        | some movies =>
            let best_title :=
              best_title_match env.sim movie_title (movies.map (fun m => m.title))
            let best_theater :=
              best_title_match env.sim theater_name
                ((movies.map (fun m => m.showtimes.map (fun s => s.theatreName))).flatten)
            let showtimes :=
              ((movies.filter (fun m => m.title == best_title)).map (fun m =>
                (m.showtimes.filter (fun s => s.theatreName == best_theater)).map
                  (fun s => env.fmtTime s.dateTime))).flatten
            if showtimes.length > 0 then
              Except.ok (close req.sessionAttributes "Fulfilled"
                ⟨"PlainText", "*" ++ best_title ++ "* is showing at " ++ best_theater ++
                  " at the following times:\n" ++ "```" ++
                  String.intercalate "\n" (showtimes.map (fun t => "* " ++ t)) ++ "```"⟩)
            else
              Except.ok (close req.sessionAttributes "Fulfilled"
                ⟨"PlainText", "I\x27m sorry, I can\x27t find any showtimes for *" ++
                  best_title ++ "* at " ++ best_theater⟩)
        | Option.none =>
            Except.error "UnboundLocalError: local variable showtimes referenced before assignment"
    | _, _, _ => Except.error "KeyError"

/-- `find_movie(intent_request)`: dialog phase as above; fulfillment
best-matches the movie title and collects the theaters showing it, deduped in
first-seen order (`theaters = []` is initialised before the call, so a failed
call degrades to the empty list; `best_title` is only read when `theaters` is
non-empty, which implies the provider branch ran). -/
def find_movie (env : Env) (req : IntentRequest) : Except String BotResponse :=
  if req.invocationSource = "DialogCodeHook" then
    Except.ok (dialog_code_hook req.intentName req.slots req.sessionAttributes)
  else
    match pySlotStr req.slots "movie_title", pySessAttr req.sessionAttributes "zipcode" with
    | Except.ok movie_title, Except.ok _zipcode =>
        let pair : String × List String :=
          match env.listings with
          | some movies =>
              let bt := best_title_match env.sim movie_title (movies.map (fun m => m.title))
              (bt, dedupFold (((movies.filter (fun m => m.title == bt)).map (fun m =>
                m.showtimes.map (fun s => s.theatreName))).flatten))
          | Option.none => ("", [])
        let best_title := pair.1
        let theaters := pair.2
        if theaters.length > 0 then
          let theater_opts := theaters.map (fun t =>
            CardButton.mk t ("When is theater " ++ t ++ " showing film " ++ best_title))
          Except.ok (elicit_intent req.sessionAttributes "FindShowtimes"
            (some ⟨"PlainText", "*" ++ best_title ++ "* is showing at the following theaters:"⟩)
            (some (build_response_card ("Theaters showing " ++ best_title)
              "Select a theater to see showtimes" theater_opts)))
        else
          Except.ok (close req.sessionAttributes "Fulfilled"
            ⟨"PlainText", "I\x27m sorry, I can\x27t find any theaters showing *" ++
              movie_title ++ "*"⟩)
    | _, _ => Except.error "KeyError"

/-- `get_theater_movies(intent_request)`: best-match the theater name across
all showtime entries, then collect the titles playing there (one membership
test per showtime entry, deduped first-seen). -/
def get_theater_movies (env : Env) (req : IntentRequest) : Except String BotResponse :=
  if req.invocationSource = "DialogCodeHook" then
    Except.ok (dialog_code_hook req.intentName req.slots req.sessionAttributes)
  else
    match pySlotStr req.slots "theater_name", pySessAttr req.sessionAttributes "zipcode" with
    | Except.ok theater_name, Except.ok _zipcode =>
        let pair : String × List String :=
          match env.listings with
          | some movies =>
              let bt := best_title_match env.sim theater_name
                ((movies.map (fun m => m.showtimes.map (fun s => s.theatreName))).flatten)
              (bt, dedupFold ((movies.map (fun m =>
                (m.showtimes.filter (fun s => s.theatreName == bt)).map
                  (fun _ => m.title))).flatten))
          | Option.none => ("", [])
        let best_theater := pair.1
        let movies_list := pair.2
        if movies_list.length > 0 then
          let movie_opts := movies_list.map (fun m =>
            CardButton.mk m ("When is theater " ++ best_theater ++ " showing film " ++ m))
          Except.ok (elicit_intent req.sessionAttributes "FindShowtimes"
            (some ⟨"PlainText", "Currently showing at *" ++ best_theater ++ "*:"⟩)
            (some (build_response_card "Now showing"
              "Select a movie to see showtimes" movie_opts)))
        else
          Except.ok (close req.sessionAttributes "Fulfilled"
            ⟨"PlainText", "I\x27m sorry, I can\x27t find any movies showing at *" ++
              theater_name ++ "*"⟩)
    | _, _ => Except.error "KeyError"

/-- `get_movies(intent_request)`: list every title playing near the stored
zipcode, deduped in first-seen provider order. -/
def get_movies (env : Env) (req : IntentRequest) : Except String BotResponse :=
  if req.invocationSource = "DialogCodeHook" then
    Except.ok (dialog_code_hook req.intentName req.slots req.sessionAttributes)
  else
    match pySessAttr req.sessionAttributes "zipcode" with
    | Except.ok zipcode =>
        let movies_list :=
          match env.listings with
          | some movies => dedupFold (movies.map (fun (m : Movie) => m.title))
          | Option.none => []
        if movies_list.length > 0 then
          let movie_opts := movies_list.map (fun m =>
            CardButton.mk m ("Where is the film " ++ m ++ " playing near " ++ zipcode))
          Except.ok (elicit_intent req.sessionAttributes "FindMovie"
            (some ⟨"PlainText", "Here are the movies I found:"⟩)
            (some (build_response_card ("Movies showing near " ++ zipcode)
              "Select a movie to see theaters" movie_opts)))
        else
          Except.ok (close req.sessionAttributes "Fulfilled"
            ⟨"PlainText", "I\x27m sorry, I can\x27t find any movies showing near *" ++
              zipcode ++ "*"⟩)
    | Except.error e => Except.error e

/- ---- intent dispatcher ---- -/

/-- `dispatch(intent_request)`: exact string match of the intent name against
the six handlers; anything else raises. -/
def dispatch (env : Env) (req : IntentRequest) : Except String BotResponse :=
  if req.intentName = "FindMovie" then find_movie env req
  else if req.intentName = "GetTheaterMovies" then get_theater_movies env req
  else if req.intentName = "GetMovies" then get_movies env req
  else if req.intentName = "FindShowtimes" then get_showtimes env req
  else if req.intentName = "GetMovieDetail" then get_movie_detail env req
  else if req.intentName = "GetHelp" then help req
  else Except.error ("Intent with name " ++ req.intentName ++ " not supported")

/- ===================================================================== -/
/- Verification                                                           -/
/- ===================================================================== -/

/-- A concrete stand-in for the abstract difflib ratio, used to instantiate
witnesses: 1 on equal strings, 0 otherwise. -/
def exactSim (a b : String) : ℚ := if a = b then 1 else 0

/-- A concrete environment for witnesses: identity formatters, every provider
call failing. -/
def env0 : Env :=
  Env.mk exactSim (fun s => s) (fun s => s) Option.none
    (TmdbEnv.mk Option.none Option.none Option.none)

/- ---- generic list lemmas about the card chunking ---- -/

lemma flatten_chunks {α : Type} (l : List α) :
    ∀ k : Nat,
      ((List.range k).map (fun i => (l.drop (i * 5)).take 5)).flatten = l.take (5 * k)
  | 0 => by simp
  | k + 1 => by
      rw [List.range_succ, List.map_append, List.flatten_append, flatten_chunks l k]
      have h5 : 5 * (k + 1) = 5 * k + 5 := by ring
      rw [h5, List.take_add]
      simp [Nat.mul_comm]

/-- Claim C5: `build_response_card` partitions the options into pages of at
most five, in input order; the page count is `⌈n/5⌉`; every page title gets
the 1-based page suffix exactly when more than one page results; 12 options
give pages of sizes 5/5/2; 3 options give a single page; no options give no
pages. -/
theorem c5_response_card_pagination (title subtitle : String)
    (options : List CardButton) :
    (build_response_card title subtitle options).genericAttachments.length
        = (options.length + 4) / 5
    ∧ ((build_response_card title subtitle options).genericAttachments.map
        (fun a => a.buttons)).flatten = options
    ∧ (∀ a ∈ (build_response_card title subtitle options).genericAttachments,
        a.buttons.length ≤ 5)
    ∧ (∀ i (h : i < (build_response_card title subtitle options).genericAttachments.length),
        ((build_response_card title subtitle options).genericAttachments.get ⟨i, h⟩).title
          = if 1 < (build_response_card title subtitle options).genericAttachments.length
            then title ++ " - page " ++ toString (i + 1) else title)
    ∧ (options = [] → (build_response_card title subtitle options).genericAttachments = [])
    ∧ (options.length = 12 →
        ((build_response_card title subtitle options).genericAttachments.map
          (fun a => a.buttons.length)) = [5, 5, 2])
    ∧ (options.length = 3 →
        (build_response_card title subtitle options).genericAttachments.length = 1) := by
  have hcnt : options.length / 5 + (if options.length % 5 > 0 then 1 else 0)
      = (options.length + 4) / 5 := by
    rcases Nat.lt_or_ge 0 (options.length % 5) with h | h
    · rw [if_pos h]; omega
    · rw [if_neg (by omega)]; omega
  refine ⟨?_, ?_, ?_, ?_, ?_, ?_, ?_⟩
  · simp [build_response_card, hcnt]
  · rw [build_response_card]
    simp only [List.map_map]
    have hfun : ((fun a => CardAttachment.buttons a) ∘ fun i =>
        CardAttachment.mk
          (if options.length / 5 + (if options.length % 5 > 0 then 1 else 0) > 1
           then title ++ " - page " ++ toString (i + 1) else title)
          subtitle ((options.drop (i * 5)).take 5))
        = fun i => (options.drop (i * 5)).take 5 := rfl
    rw [hfun, flatten_chunks, hcnt]
    exact List.take_of_length_le (by omega)
  · intro a ha
    rw [build_response_card] at ha
    simp only [List.mem_map, List.mem_range] at ha
    obtain ⟨i, _, rfl⟩ := ha
    simp [List.length_take]
  · intro i h
    have hlen : (build_response_card title subtitle options).genericAttachments.length
        = options.length / 5 + (if options.length % 5 > 0 then 1 else 0) := by
      simp [build_response_card]
    simp only [build_response_card, List.get_eq_getElem, List.getElem_map,
      List.getElem_range] at h ⊢
    simp only [List.length_map, List.length_range]
  · intro h
    simp [build_response_card, h]
  · intro h
    have h3 : options.length / 5 + (if options.length % 5 > 0 then 1 else 0) = 3 := by
      rw [h]; decide
    rw [build_response_card]
    simp only [List.map_map, h3]
    have : List.range 3 = [0, 1, 2] := rfl
    rw [this]
    simp [List.length_take, List.length_drop, h]
  · intro h
    have h1 : options.length / 5 + (if options.length % 5 > 0 then 1 else 0) = 1 := by
      rw [h]; decide
    simp [build_response_card, h1]

/-- Witness for C5 at twelve concrete options. -/
def opts12 : List CardButton :=
  (List.range 12).map (fun i => CardButton.mk (toString i) (toString i))

/-- Witness: twelve options paginate into pages of sizes 5/5/2. -/
theorem c5_response_card_pagination_witness :
    ((build_response_card "Movies" "Pick one" opts12).genericAttachments.map
      (fun a => a.buttons.length)) = [5, 5, 2] :=
  (c5_response_card_pagination "Movies" "Pick one" opts12).2.2.2.2.2.1 (by decide)

/- ---- best-match selection lemmas (claim C4) ---- -/

lemma bestLoop_no_update (score : String → ℚ) :
    ∀ (l : List String) (acc : ℚ × String),
      (∀ t ∈ l, ¬(mkRat 1 2 ≤ score t ∧ acc.1 < score t)) →
      bestLoop score l acc = acc
  | [], _, _ => rfl
  | c :: rest, acc, h => by
      rw [bestLoop, if_neg (h c (by simp))]
      exact bestLoop_no_update score rest acc (fun t ht => h t (by simp [ht]))

lemma bestLoop_first_max (score : String → ℚ) :
    ∀ (l1 : List String) (c : String) (l2 : List String) (acc : ℚ × String),
      mkRat 1 2 ≤ score c → acc.1 < score c →
      (∀ t ∈ l1, score t < score c) →
      (∀ t ∈ l2, score t ≤ score c) →
      bestLoop score (l1 ++ c :: l2) acc = (score c, c)
  | [], c, l2, acc, h12, hacc, _, hl2 => by
      rw [List.nil_append, bestLoop, if_pos ⟨h12, hacc⟩]
      exact bestLoop_no_update score l2 (score c, c)
        (fun t ht hcon => absurd hcon.2 (not_lt.mpr (hl2 t ht)))
  | t :: l1, c, l2, acc, h12, hacc, hl1, hl2 => by
      have hlt : score t < score c := hl1 t (by simp)
      rw [List.cons_append, bestLoop]
      by_cases hcond : mkRat 1 2 ≤ score t ∧ acc.1 < score t
      · rw [if_pos hcond]
        exact bestLoop_first_max score l1 c l2 (score t, t) h12 hlt
          (fun u hu => hl1 u (by simp [hu])) hl2
      · rw [if_neg hcond]
        exact bestLoop_first_max score l1 c l2 acc h12 hacc
          (fun u hu => hl1 u (by simp [hu])) hl2

/-- Claim C4: best-match selection scores each candidate on the lowered,
stripped strings, discards scores below 1/2, keeps the maximum with ties
going to the earliest candidate, yields the no-match sentinel when every
candidate scores below 1/2, and depends on the query only through its
normalised form (the selection is a pure function of its inputs, hence
deterministic across repeated runs). -/
theorem c4_best_match_selection (sim : String → String → ℚ) (query : String) :
    (∀ titles : List String,
      (∀ t ∈ titles, candidateScore sim query t < mkRat 1 2) →
      best_title_match sim query titles = "")
    ∧ (∀ (l1 : List String) (c : String) (l2 : List String),
        mkRat 1 2 ≤ candidateScore sim query c →
        (∀ t ∈ l1, candidateScore sim query t < candidateScore sim query c) →
        (∀ t ∈ l2, candidateScore sim query t ≤ candidateScore sim query c) →
        best_title_match sim query (l1 ++ c :: l2) = c)
    ∧ (∀ (query2 : String) (titles : List String),
        pyLowerStrip query = pyLowerStrip query2 →
        best_title_match sim query titles = best_title_match sim query2 titles) := by
  refine ⟨?_, ?_, ?_⟩
  · intro titles h
    rw [best_title_match, bestLoop_no_update]
    intro t ht hcon
    exact absurd hcon.1 (not_le.mpr (h t ht))
  · intro l1 c l2 h12 hl1 hl2
    rw [best_title_match, bestLoop_first_max (candidateScore sim query) l1 c l2 (0, "")
      h12 (lt_of_lt_of_le (by decide) h12) hl1 hl2]
  · intro query2 titles h
    rw [best_title_match, best_title_match]
    have : candidateScore sim query = candidateScore sim query2 := by
      funext t
      rw [candidateScore, candidateScore, h]
    rw [this]

/-- Witness: with an exact-equality scorer, the second candidate "beta" is
selected for query "Beta" (case-insensitively) over a non-matching first
candidate. -/
theorem c4_best_match_selection_witness :
    best_title_match exactSim "Beta" ["alpha", "beta"] = "beta" :=
  (c4_best_match_selection exactSim "Beta").2.1 ["alpha"] "beta" []
    (by decide) (by decide) (by decide)

/- ---- first-seen dedup lemmas (claim C7) ---- -/

lemma dedupFold_go_nodup :
    ∀ (l acc : List String), acc.Nodup →
      (List.foldl (fun acc t => if t ∈ acc then acc else acc ++ [t]) acc l).Nodup
  | [], _, h => h
  | t :: rest, acc, h => by
      rw [List.foldl_cons]
      by_cases ht : t ∈ acc
      · rw [if_pos ht]
        exact dedupFold_go_nodup rest acc h
      · rw [if_neg ht]
        exact dedupFold_go_nodup rest (acc ++ [t]) (by simp [List.nodup_append, h, ht])

lemma dedupFold_go_mem :
    ∀ (l acc : List String) (x : String),
      x ∈ List.foldl (fun acc t => if t ∈ acc then acc else acc ++ [t]) acc l
        ↔ x ∈ acc ∨ x ∈ l
  | [], acc, x => by simp
  | t :: rest, acc, x => by
      rw [List.foldl_cons]
      by_cases ht : t ∈ acc
      · rw [if_pos ht, dedupFold_go_mem rest acc x]
        constructor
        · rintro (h | h)
          · exact Or.inl h
          · exact Or.inr (List.mem_cons_of_mem t h)
        · rintro (h | h)
          · exact Or.inl h
          · rcases List.mem_cons.mp h with rfl | h2
            · exact Or.inl ht
            · exact Or.inr h2
      · rw [if_neg ht, dedupFold_go_mem rest (acc ++ [t]) x]
        simp only [List.mem_append, List.mem_singleton, List.mem_cons]
        tauto

lemma dedupFold_go_sublist :
    ∀ (l acc : List String),
      ∃ l2, List.foldl (fun acc t => if t ∈ acc then acc else acc ++ [t]) acc l
          = acc ++ l2 ∧ l2.Sublist l
  | [], acc => ⟨[], by simp, by simp⟩
  | t :: rest, acc => by
      rw [List.foldl_cons]
      by_cases ht : t ∈ acc
      · rw [if_pos ht]
        obtain ⟨l2, h1, h2⟩ := dedupFold_go_sublist rest acc
        exact ⟨l2, h1, h2.trans (List.sublist_cons_self t rest)⟩
      · rw [if_neg ht]
        obtain ⟨l2, h1, h2⟩ := dedupFold_go_sublist rest (acc ++ [t])
        refine ⟨t :: l2, ?_, List.Sublist.cons₂ t h2⟩
        rw [h1, List.append_assoc]
        rfl

/-- Claim C7: the list-movies capability dedupes titles in first-seen
provider order: a listings payload titled A, A, B yields an ElicitIntent
whose card holds exactly the two options A then B; an empty payload and a
failed call both yield the failure Close message; and the dedup keeps each
title once, order-preservingly. -/
theorem c7_get_movies_dedup (env : Env) (req : IntentRequest)
    (attrs : SessionAttrs) (z : String)
    (hsrc : req.invocationSource ≠ "DialogCodeHook")
    (hsess : req.sessionAttributes = some attrs)
    (hz : lookupAttr attrs "zipcode" = some z) :
    (∀ m1 m2 m3 : Movie, env.listings = some [m1, m2, m3] →
      m1.title = "Movie A" → m2.title = "Movie A" → m3.title = "Movie B" →
      get_movies env req = Except.ok (elicit_intent (some attrs) "FindMovie"
        (some ⟨"PlainText", "Here are the movies I found:"⟩)
        (some (build_response_card ("Movies showing near " ++ z)
          "Select a movie to see theaters"
          [CardButton.mk "Movie A" ("Where is the film Movie A playing near " ++ z),
           CardButton.mk "Movie B" ("Where is the film Movie B playing near " ++ z)]))))
    ∧ (env.listings = some [] →
        get_movies env req = Except.ok (close (some attrs) "Fulfilled"
          ⟨"PlainText", "I\x27m sorry, I can\x27t find any movies showing near *" ++ z ++ "*"⟩))
    ∧ (env.listings = Option.none →
        get_movies env req = Except.ok (close (some attrs) "Fulfilled"
          ⟨"PlainText", "I\x27m sorry, I can\x27t find any movies showing near *" ++ z ++ "*"⟩))
    ∧ (∀ l : List String, (dedupFold l).Nodup ∧ (∀ x, x ∈ dedupFold l ↔ x ∈ l)
        ∧ (dedupFold l).Sublist l) := by
  refine ⟨?_, ?_, ?_, ?_⟩
  · intro m1 m2 m3 hlist h1 h2 h3
    have hd : dedupFold ["Movie A", "Movie A", "Movie B"] = ["Movie A", "Movie B"] := by
      decide
    simp only [get_movies, if_neg hsrc, hsess, pySessAttr, hz, hlist, List.map_cons,
      List.map_nil, h1, h2, h3, hd]
    simp
  · intro hlist
    simp [get_movies, if_neg hsrc, hsess, pySessAttr, hz, hlist, dedupFold]
  · intro hlist
    simp [get_movies, if_neg hsrc, hsess, pySessAttr, hz, hlist]
  · intro l
    obtain ⟨l2, h1, h2⟩ := dedupFold_go_sublist l []
    refine ⟨dedupFold_go_nodup l [] (by simp), fun x => ?_, ?_⟩
    · rw [dedupFold, dedupFold_go_mem]
      simp
    · rw [dedupFold, h1]
      simpa using h2

/-- Concrete environment and request for the C7 witness. -/
def env7 : Env :=
  Env.mk exactSim (fun s => s) (fun s => s)
    (some [Movie.mk "Movie A" [], Movie.mk "Movie A" [], Movie.mk "Movie B" []])
    (TmdbEnv.mk Option.none Option.none Option.none)

def req7 : IntentRequest :=
  IntentRequest.mk "GetMovies" "FulfillmentCodeHook" [] (some [("zipcode", "54321")])

/-- Witness: the duplicated payload A, A, B produces exactly the two options
A then B. -/
theorem c7_get_movies_dedup_witness :
    get_movies env7 req7 = Except.ok (elicit_intent (some [("zipcode", "54321")])
      "FindMovie" (some ⟨"PlainText", "Here are the movies I found:"⟩)
      (some (build_response_card ("Movies showing near " ++ "54321")
        "Select a movie to see theaters"
        [CardButton.mk "Movie A" ("Where is the film Movie A playing near " ++ "54321"),
         CardButton.mk "Movie B" ("Where is the film Movie B playing near " ++ "54321")]))) :=
  (c7_get_movies_dedup env7 req7 [("zipcode", "54321")] "54321"
    (by decide) rfl (by decide)).1
    (Movie.mk "Movie A" []) (Movie.mk "Movie A" []) (Movie.mk "Movie B" [])
    rfl rfl rfl rfl

/- ---- session-carrier and zipcode-format lemmas (claims C3, C6, C9) ---- -/

lemma lookupAttr_setAttr :
    ∀ (l : SessionAttrs) (k v key : String),
      lookupAttr (setAttr l k v) key = if k = key then some v else lookupAttr l key
  | [], k, v, key => by simp [setAttr, lookupAttr]
  | (a, b) :: rest, k, v, key => by
      rw [setAttr]
      by_cases hak : a = k
      · subst hak
        rw [if_pos rfl, lookupAttr, lookupAttr]
        by_cases hk : a = key
        · simp [hk]
        · simp [hk]
      · rw [if_neg hak, lookupAttr, lookupAttr]
        by_cases ha : a = key
        · have hk : ¬(k = key) := fun h => hak (ha.trans h.symm)
          simp [ha, hk]
        · simp [ha, lookupAttr_setAttr rest k v key]

lemma setAttr_self :
    ∀ (l : SessionAttrs) (k v : String), lookupAttr l k = some v → setAttr l k v = l
  | [], k, v, h => by simp [lookupAttr] at h
  | (a, b) :: rest, k, v, h => by
      rw [lookupAttr] at h
      rw [setAttr]
      by_cases hak : a = k
      · rw [if_pos hak] at h ⊢
        injection h with hbv
        rw [hak, hbv]
      · rw [if_neg hak] at h ⊢
        rw [setAttr_self rest k v h]

lemma stripTrailingNL_of_digits (z : String) (hdig : z.data.all Char.isDigit = true) :
    stripTrailingNL z = z.data := by
  rw [stripTrailingNL]
  rcases hrev : z.data.reverse with _ | ⟨c, rest⟩
  · have hz : z.data = [] := by
      have h2 := congrArg List.reverse hrev
      simpa using h2
    simp [hz]
  · have hc : c ∈ z.data := by
      rw [← List.mem_reverse, hrev]
      exact List.mem_cons_self c rest
    have hcd : Char.isDigit c = true := by
      rw [List.all_eq_true] at hdig
      exact hdig c hc
    have hcn : ¬(c = Char.ofNat 10) := by
      intro h
      rw [h] at hcd
      exact absurd hcd (by decide)
    simp only [hrev]
    rw [if_neg (by simpa using hcn)]

lemma zipcodeMatch_five_digits (z : String) (hlen : z.data.length = 5)
    (hdig : z.data.all Char.isDigit = true) : zipcodeMatch z = some z := by
  rw [zipcodeMatch, stripTrailingNL_of_digits z hdig]
  have h1 : z.data.take 5 = z.data := List.take_of_length_le (by omega)
  have h2 : z.data.drop 5 = [] := List.drop_eq_nil_of_le (by omega)
  rw [if_pos ⟨by omega, by rw [h1]; exact hdig, by rw [h2]; rfl⟩, h1]

lemma zipcodeMatch_some_take (s g : String) (h : zipcodeMatch s = some g) :
    g = String.mk ((stripTrailingNL s).take 5) := by
  rw [zipcodeMatch] at h
  split at h
  · injection h with h1
    exact h1.symm
  · exact absurd h (by simp)

/-- Modelled from the spec: the claimed location regex `^\\d\x7b5\x7d([- ]?\\d\x7b4\x7d)?$`
read plainly — after the five digits either nothing follows, or one optional
separator followed by exactly four digits.  This is the claim side of C3, to
be compared against `zipcodeMatch` (the code side). -/
def specZipRegexMatch (s : String) : Bool :=
  let cs := s.data
  decide (5 ≤ cs.length) && (cs.take 5).all Char.isDigit &&
    (match cs.drop 5 with
     | [] => true
     | c :: rest =>
         if c = '-' ∨ c = ' ' then (rest.length == 4) && rest.all Char.isDigit
         else ((c :: rest).length == 4) && (c :: rest).all Char.isDigit)

/-- Counterexample to claim C3: the input "12345-" does not match the claimed
regex, yet the code validates it successfully (the separator group and the
four-digit group are independently optional in the code's regex), normalises
it to "12345" and delegates instead of failing with the violation. -/
theorem c3_spec_regex_counterexample :
    specZipRegexMatch "12345-" = false
    ∧ validate_zipcode [("zipcode", some "12345-")] Option.none
        = (ZipOutcome.value "12345", [("zipcode", "12345")])
    ∧ dialog_code_hook "FindMovie" [("zipcode", some "12345-")] Option.none
        = delegate (some [("zipcode", "12345")]) [("zipcode", some "12345-")] :=
  ⟨by decide, by decide, by decide⟩

/-- Claim C3 as amended: for every non-empty slot-supplied location, validation
succeeds exactly when the code regex `^(\\d\x7b5\x7d)([- ])?(\\d\x7b4\x7d)?$` matches
(separator and plus-four independently optional), normalising to the leading
five digits written into the session carrier; every other non-empty input
fails, and the handler then reports the fixed violated slot name. -/
theorem c3_validate_zipcode_amended (s : String) (sess : Option SessionAttrs)
    (hs : s ≠ "") :
    (∀ g, zipcodeMatch s = some g →
      g = String.mk ((stripTrailingNL s).take 5)
      ∧ validate_zipcode [("zipcode", some s)] sess
          = (ZipOutcome.value g, setAttr (sessBase sess) "zipcode" g))
    ∧ (zipcodeMatch s = Option.none →
      validate_zipcode [("zipcode", some s)] sess = (ZipOutcome.invalid, sessBase sess)
      ∧ dialog_code_hook "FindMovie" [("zipcode", some s)] sess
          = build_validation_result false "zipcode"
              "Whoops! You entered an invalid zip code. What is your zip code?") := by
  have htruthy : slotTruthy [("zipcode", some s)] "zipcode" = true := by
    simp [slotTruthy, lookupSlot, hs]
  have hget : slotGet [("zipcode", some s)] "zipcode" = s := by
    simp [slotGet, lookupSlot]
  constructor
  · intro g hg
    refine ⟨zipcodeMatch_some_take s g hg, ?_⟩
    simp [validate_zipcode, htruthy, hget, hs, hg]
  · intro hg
    have hv : validate_zipcode [("zipcode", some s)] sess
        = (ZipOutcome.invalid, sessBase sess) := by
      simp [validate_zipcode, htruthy, hget, hs, hg]
    exact ⟨hv, by simp [dialog_code_hook, hv]⟩

/-- Witness: "12345 6789" matches, normalises to "12345" and is written into
the carrier. -/
theorem c3_validate_zipcode_amended_witness :
    validate_zipcode [("zipcode", some "12345 6789")] Option.none
      = (ZipOutcome.value "12345", setAttr (sessBase Option.none) "zipcode" "12345") :=
  ((c3_validate_zipcode_amended "12345 6789" Option.none (by decide)).1 "12345"
    (by decide)).2

/-- Claim C6: a dialog-phase turn whose slot map has no truthy location while
the carrier holds a previously stored (hence five-digit, normaliser-shaped)
location returns the stored value as Valid, leaves the carrier unchanged, and
the handler delegates rather than re-prompting. -/
theorem c6_stored_zipcode_reused (env : Env) (req : IntentRequest)
    (attrs : SessionAttrs) (z : String)
    (hsrc : req.invocationSource = "DialogCodeHook")
    (hslot : slotTruthy req.slots "zipcode" = false)
    (hsess : req.sessionAttributes = some attrs)
    (hstored : lookupAttr attrs "zipcode" = some z)
    (hlen : z.data.length = 5) (hdig : z.data.all Char.isDigit = true) :
    validate_zipcode req.slots req.sessionAttributes = (ZipOutcome.value z, attrs)
    ∧ find_movie env req
        = Except.ok (BotResponse.dialog (some attrs) (DialogAction.delegate req.slots)) := by
  have hz : z ≠ "" := by
    intro h
    rw [h] at hlen
    exact absurd hlen (by decide)
  have hmatch := zipcodeMatch_five_digits z hlen hdig
  have hne : attrs ≠ [] := by
    intro h
    rw [h] at hstored
    simp [lookupAttr] at hstored
  have hval : validate_zipcode req.slots req.sessionAttributes
      = (ZipOutcome.value z, attrs) := by
    rcases attrs with _ | ⟨p, rest⟩
    · exact absurd rfl hne
    · simp [validate_zipcode, hsess, sessBase, hslot, hstored, hz, hmatch,
        setAttr_self (p :: rest) "zipcode" z hstored]
  refine ⟨hval, ?_⟩
  simp [find_movie, hsrc, dialog_code_hook, hval, hz, delegate]

/-- Witness: slot `None`, stored "98765" with an unrelated key alongside. -/
theorem c6_stored_zipcode_reused_witness :
    validate_zipcode [("zipcode", Option.none)]
        (some [("zipcode", "98765"), ("city", "X")])
      = (ZipOutcome.value "98765", [("zipcode", "98765"), ("city", "X")])
    ∧ find_movie env0 (IntentRequest.mk "FindMovie" "DialogCodeHook"
        [("zipcode", Option.none)] (some [("zipcode", "98765"), ("city", "X")]))
      = Except.ok (BotResponse.dialog (some [("zipcode", "98765"), ("city", "X")])
          (DialogAction.delegate [("zipcode", Option.none)])) :=
  c6_stored_zipcode_reused env0
    (IntentRequest.mk "FindMovie" "DialogCodeHook" [("zipcode", Option.none)]
      (some [("zipcode", "98765"), ("city", "X")]))
    [("zipcode", "98765"), ("city", "X")] "98765"
    rfl (by decide) rfl (by decide) (by decide) (by decide)

/-- Inversion of the validator's success path: a `value z` result with `z`
non-empty can only come from the format check succeeding, whose branch writes
exactly the normalised value under the fixed key. -/
lemma validate_value_sets (slots : Slots) (sess : Option SessionAttrs) (z : String)
    (out : SessionAttrs) (hz : z ≠ "")
    (h : validate_zipcode slots sess = (ZipOutcome.value z, out)) :
    out = setAttr (sessBase sess) "zipcode" z := by
  simp only [validate_zipcode] at h
  split at h
  · split at h
    · split at h
      · simp only [Prod.mk.injEq, ZipOutcome.value.injEq] at h
        rw [← h.1, h.2]
      · simp at h
    · simp only [Prod.mk.injEq, ZipOutcome.value.injEq] at h
      rename_i hempty
      rw [← h.1] at hz
      simp at hempty
      exact absurd hempty hz
  · simp only [Prod.mk.injEq] at h
    rename_i hnv
    exact (hnv z h.1).elim

/-- Claim C9: when dialog-phase validation succeeds, the handler delegates
with the inbound slot map unchanged, and the echoed session carrier is the
inbound carrier with only the fixed location key written (all other keys
unchanged). -/
theorem c9_valid_location_delegates (env : Env) (req : IntentRequest) (z : String)
    (out : SessionAttrs)
    (hsrc : req.invocationSource = "DialogCodeHook")
    (hval : validate_zipcode req.slots req.sessionAttributes = (ZipOutcome.value z, out))
    (hz : z ≠ "") :
    find_movie env req
      = Except.ok (BotResponse.dialog (some out) (DialogAction.delegate req.slots))
    ∧ out = setAttr (sessBase req.sessionAttributes) "zipcode" z
    ∧ lookupAttr out "zipcode" = some z
    ∧ ∀ key, ¬(key = "zipcode") →
        lookupAttr out key = lookupAttr (sessBase req.sessionAttributes) key := by
  have hout := validate_value_sets req.slots req.sessionAttributes z out hz hval
  refine ⟨?_, hout, ?_, ?_⟩
  · simp [find_movie, hsrc, dialog_code_hook, hval, hz, delegate]
  · rw [hout, lookupAttr_setAttr]
    simp
  · intro key hk
    rw [hout, lookupAttr_setAttr, if_neg (fun h => hk h.symm)]

/-- Witness: a fresh "12345" in the slot map delegates and echoes the carrier
holding the normalised value. -/
theorem c9_valid_location_delegates_witness :
    find_movie env0 (IntentRequest.mk "FindMovie" "DialogCodeHook"
      [("zipcode", some "12345")] Option.none)
      = Except.ok (BotResponse.dialog (some [("zipcode", "12345")])
          (DialogAction.delegate [("zipcode", some "12345")])) :=
  (c9_valid_location_delegates env0
    (IntentRequest.mk "FindMovie" "DialogCodeHook" [("zipcode", some "12345")]
      Option.none)
    "12345" [("zipcode", "12345")] rfl (by decide) (by decide)).1

/-- Claim C8: once the title search picks a match, each secondary lookup
fails independently of the other — a failed certification lookup leaves the
rating at its empty default while a succeeding one yields its certification,
and a failed detail lookup leaves runtime 0 and release date empty — while
the assembled info message is still returned in every combination; and when
no search candidate survives (`best_id = 0`, covering both a failed search
call and an all-below-threshold result), the fixed not-found Close is
returned.  The certification lookup is summarised by `rating`: `""` when the
call fails (`release_dates = none`), the loop's result when it succeeds;
the detail lookup is left fully arbitrary in the conclusion. -/
theorem c8_get_movie_detail_defaults (env : Env) (req : IntentRequest)
    (title : String)
    (hslot : lookupSlot req.slots "movie_title" = some (some title)) :
    (∀ (results : List SearchResult) (s : ℚ) (i : Nat) (t rating : String),
      env.tmdb.search = some results →
      bestIdLoop (candidateScore env.sim title) results (0, 0, "") = (s, i, t) →
      ¬(i = 0) →
      (match env.tmdb.release_dates with
       | some entries => usRating entries ""
       | Option.none => Except.ok "") = Except.ok rating →
      get_movie_detail env req = Except.ok (close req.sessionAttributes "Fulfilled"
        ⟨"PlainText", "Here is some info for *" ++ t ++ "*:\n_Release date_: " ++
          (match env.tmdb.detail with
           | some d => env.fmtDate d.release_date
           | Option.none => "") ++ "\n_Runtime_: " ++
          toString (match env.tmdb.detail with
           | some d => d.runtime
           | Option.none => 0) ++ " mins\n_Rating_: " ++ rating⟩))
    ∧ (∀ (s : ℚ) (i : Nat) (t : String),
      (match env.tmdb.search with
       | some results => bestIdLoop (candidateScore env.sim title) results (0, 0, "")
       | Option.none => ((0 : ℚ), 0, "")) = (s, i, t) →
      i = 0 →
      get_movie_detail env req = Except.ok (close req.sessionAttributes "Fulfilled"
        ⟨"PlainText", "I\x27m sorry, I can\x27t find any info for *" ++ title ++ "*"⟩)) := by
  constructor
  · intro results s i t rating hsearch hloop hi hrat
    rcases hdet : env.tmdb.detail with _ | d
    · simp [get_movie_detail, pySlotStr, hslot, hsearch, hloop, hi, hrat, hdet]
    · simp [get_movie_detail, pySlotStr, hslot, hsearch, hloop, hi, hrat, hdet]
  · intro s i t hloop hi
    rw [hi] at hloop
    simp [get_movie_detail, pySlotStr, hslot, hloop]

/-- Concrete environment and request for the C8 witness: the search succeeds
with one exact match, the certification lookup succeeds (US entry rated
"PG-13"), and only the runtime/release-date lookup fails. -/
def env8 : Env :=
  Env.mk exactSim (fun s => s) (fun s => s) Option.none
    (TmdbEnv.mk (some [SearchResult.mk 7 "foo"])
      (some [ReleaseEntry.mk "US" ["PG-13"]]) Option.none)

def req8 : IntentRequest :=
  IntentRequest.mk "GetMovieDetail" "FulfillmentCodeHook"
    [("movie_title", some "Foo")] (some [])

/-- Witness: with the certification lookup succeeding and the detail lookup
failing, the info message is still assembled — the gathered rating is kept
while runtime defaults to 0 and the release date to the empty string. -/
theorem c8_get_movie_detail_defaults_witness :
    get_movie_detail env8 req8 = Except.ok (close (some []) "Fulfilled"
      ⟨"PlainText",
        "Here is some info for *foo*:\n_Release date_: \n_Runtime_: 0 mins\n_Rating_: PG-13"⟩) := by
  have h := (c8_get_movie_detail_defaults env8 req8 "Foo" (by decide)).1
    [SearchResult.mk 7 "foo"] 1 7 "foo" "PG-13" rfl (by decide) (by decide) (by decide)
  simpa using h

/-- Claim C10: the dispatcher routes by exact string match of the intent name
against the fixed six-name set, and any other name produces the raised
"not supported" error rather than a dialog response. -/
theorem c10_dispatch_exact_match (env : Env) (req : IntentRequest) :
    (req.intentName = "FindMovie" → dispatch env req = find_movie env req)
    ∧ (req.intentName = "GetTheaterMovies" → dispatch env req = get_theater_movies env req)
    ∧ (req.intentName = "GetMovies" → dispatch env req = get_movies env req)
    ∧ (req.intentName = "FindShowtimes" → dispatch env req = get_showtimes env req)
    ∧ (req.intentName = "GetMovieDetail" → dispatch env req = get_movie_detail env req)
    ∧ (req.intentName = "GetHelp" → dispatch env req = help req)
    ∧ (req.intentName ∉ (["FindMovie", "GetTheaterMovies", "GetMovies",
        "FindShowtimes", "GetMovieDetail", "GetHelp"] : List String) →
      dispatch env req
        = Except.error ("Intent with name " ++ req.intentName ++ " not supported")) := by
  refine ⟨?_, ?_, ?_, ?_, ?_, ?_, ?_⟩ <;> intro h
  · simp [dispatch, h]
  · simp [dispatch, h]
  · simp [dispatch, h]
  · simp [dispatch, h]
  · simp [dispatch, h]
  · simp [dispatch, h]
  · simp only [List.mem_cons, List.not_mem_nil, or_false, not_or] at h
    obtain ⟨h1, h2, h3, h4, h5, h6⟩ := h
    simp [dispatch, h1, h2, h3, h4, h5, h6]

/-- Witness: an unknown intent name raises the fatal error. -/
theorem c10_dispatch_exact_match_witness :
    dispatch env0 (IntentRequest.mk "OrderPizza" "DialogCodeHook" [] Option.none)
      = Except.error ("Intent with name " ++ "OrderPizza" ++ " not supported") :=
  (c10_dispatch_exact_match env0
    (IntentRequest.mk "OrderPizza" "DialogCodeHook" [] Option.none)).2.2.2.2.2.2
    (by decide)

/-- Claim C1 (the code, evaluated at the failing input): a dialog-phase turn
with the malformed location "abc" makes `find_movie` return the raw
`build_validation_result` dict — a `validationResult` value, which carries no
dialog action and no session attributes — instead of the ElicitSlot dialog
action the spec requires. -/
theorem c1_invalid_zip_returns_raw_validation_dict :
    find_movie env0 (IntentRequest.mk "FindMovie" "DialogCodeHook"
      [("zipcode", some "abc")] (some []))
      = Except.ok (BotResponse.validationResult false "zipcode"
          ⟨"PlainText", "Whoops! You entered an invalid zip code. What is your zip code?"⟩) := by
  decide

/-- Claim C2 (the code, evaluated at the failing input): in the fulfillment
phase of `get_showtimes`, a failed listings call (non-200 or empty body)
raises UnboundLocalError — a raw error — while an empty 200 result returns
the "I can\x27t find ..." Close message: the two are not treated identically. -/
theorem c2_showtimes_provider_failure_raises :
    get_showtimes env0 (IntentRequest.mk "FindShowtimes" "FulfillmentCodeHook"
      [("movie_title", some "Foo"), ("theater_name", some "Bar")]
      (some [("zipcode", "12345")]))
      = Except.error "UnboundLocalError: local variable showtimes referenced before assignment"
    ∧ get_showtimes (Env.mk exactSim (fun s => s) (fun s => s) (some [])
        (TmdbEnv.mk Option.none Option.none Option.none))
      (IntentRequest.mk "FindShowtimes" "FulfillmentCodeHook"
        [("movie_title", some "Foo"), ("theater_name", some "Bar")]
        (some [("zipcode", "12345")]))
      = Except.ok (close (some [("zipcode", "12345")]) "Fulfilled"
          ⟨"PlainText", "I\x27m sorry, I can\x27t find any showtimes for ** at "⟩) :=
  ⟨by decide, by decide⟩

end Moviebot
